import Mathlib

/-!
Shallow embedding of the ingestion / normalization core of `agent.py`
(Data Agent: ETL and query system).  The persistence layer (PostgreSQL) and
the LLM query facade are external collaborators; following the code, the
normalizer is modelled as a pure function from a parsed JSON record to a
`Post` together with its list of `Comment`s, and exceptions raised by the
Python code are modelled with `Except PyErr`.
-/

namespace DataAgent

/-- JSON values as produced by Python's `json.load`: `null`, booleans,
integers, floats (modelled as rationals; every numeric literal appearing in
this development is exactly representable), strings, arrays and objects.
`json.load` yields objects with unique keys (on duplicate keys the last
occurrence wins), which `objGet` mirrors by looking keys up from the right. -/
inductive Json where
  | null
  | bool (b : Bool)
  | int (n : Int)
  | float (q : ℚ)
  | str (s : String)
  | arr (elems : List Json)
  | obj (fields : List (String × Json))

/-- Python exceptions that the ingestion core can raise.
`malformedInput` stands for the `ValueError` raised by `ingest_json_file`
on a non-list top level (the spec's `MalformedInput`). -/
inductive PyErr where
  | attributeError
  | typeError
  | malformedInput
deriving DecidableEq

/-- Python truthiness of a JSON value (`bool(v)` is `False`). -/
def pyFalsy : Json → Bool
  | .null => true
  | .bool b => !b
  | .int n => n == 0
  | .float q => q == 0
  | .str s => s == ""
  | .arr xs => xs.isEmpty
  | .obj kvs => kvs.isEmpty

/-- `d.get(k, default)` on a Python dict represented as a key/value list
(last occurrence of a key wins, as after `json.load`). -/
def objGet (kvs : List (String × Json)) (k : String) (d : Json) : Json :=
  match kvs.reverse.lookup k with
  | some v => v
  | none => d

/-- `k in d` for a Python dict. -/
def hasKey (kvs : List (String × Json)) (k : String) : Bool :=
  (kvs.reverse.lookup k).isSome

/-- `v.get(k, default)` on an arbitrary value: every non-dict JSON value
(`None`, bool, int, float, str, list) lacks a `.get` attribute, so Python
raises `AttributeError`. -/
def jget (v : Json) (k : String) (d : Json) : Except PyErr Json :=
  match v with
  | .obj kvs => .ok (objGet kvs k d)
  | _ => .error .attributeError

/-- `s.strip()`: drop leading and trailing whitespace. -/
def sTrim (s : String) : String :=
  String.mk (((s.data.dropWhile Char.isWhitespace).reverse.dropWhile Char.isWhitespace).reverse)

/-- `s.lower()` on the string's characters (the source tags of this
repository are ASCII, for which Python's `str.lower` agrees with
`Char.toLower`). -/
def sToLower (s : String) : String :=
  String.mk (s.data.map Char.toLower)

/-- `s.replace(",", "")`: removing every occurrence of a one-character
substring is filtering that character out. -/
def stripCommas (s : String) : String :=
  String.mk (s.data.filter (fun c => c != ','))

/-- `v.lower()` on a JSON value: defined on strings; every other JSON value
lacks the attribute, raising `AttributeError`. -/
def pyLower (v : Json) : Except PyErr String :=
  match v with
  | .str s => .ok (sToLower s)
  | _ => .error .attributeError

/-- `needle in hay` on character lists: some suffix starts with the
needle. -/
def listContains (needle : List Char) : List Char → Bool
  | [] => needle.isEmpty
  | c :: cs => needle.isPrefixOf (c :: cs) || listContains needle cs

/-- `needle in hay` for Python strings. -/
def strContains (hay needle : String) : Bool :=
  listContains needle.data hay.data

/-- Value of a decimal digit string, most significant digit first. -/
def digitsToNat (cs : List Char) : Nat :=
  cs.foldl (fun acc c => acc * 10 + (c.toNat - 48)) 0

/-- All characters are decimal digits. -/
def allDigits (cs : List Char) : Bool :=
  cs.all (fun c => c.isDigit)

/-- Decimal-digit character list to `Nat`, failing on the empty list or any
non-digit character. -/
def natOfDigits (cs : List Char) : Option Nat :=
  if !cs.isEmpty && allDigits cs then some (digitsToNat cs) else none

/-- Mantissa of a Python float literal: `digits`, `digits.digits`,
`digits.` or `.digits` (at least one digit overall). -/
def pyFloatMantissa (cs : List Char) : Option ℚ :=
  match cs.splitOn '.' with
  | [ip, fp] =>
      if (ip ++ fp).isEmpty then none
      else if allDigits ip && allDigits fp then
        some ((digitsToNat ip : ℚ) + (digitsToNat fp : ℚ) / ((10 : ℚ) ^ fp.length))
      else none
  | [ip] =>
      if !ip.isEmpty && allDigits ip then some (digitsToNat ip : ℚ) else none
  | _ => none

/-- Signed decimal exponent. -/
def pyFloatExp (cs : List Char) : Option Int :=
  match cs with
  | '+' :: r => if !r.isEmpty && allDigits r then some (digitsToNat r : Int) else none
  | '-' :: r => if !r.isEmpty && allDigits r then some (-(digitsToNat r : Int)) else none
  | r => if !r.isEmpty && allDigits r then some (digitsToNat r : Int) else none

/-- Models Python's built-in `float` applied to a string: surrounding
whitespace is stripped, then an optional sign, a decimal mantissa and an
optional `e`/`E` exponent are accepted; anything else raises `ValueError`,
modelled as `none`.  (The special forms `inf`/`nan` and underscore digit
grouping are not modelled; no input in this development uses them.) -/
def pyFloatOfString (s : String) : Option ℚ :=
  let cs := (sTrim s).data
  let signAndRest : Bool × List Char :=
    match cs with
    | '+' :: r => (false, r)
    | '-' :: r => (true, r)
    | _ => (false, cs)
  let mag : Option ℚ :=
    match signAndRest.2.splitOnP (fun c => c == 'e' || c == 'E') with
    | [m] => pyFloatMantissa m
    | [m, e] => do
        let mant ← pyFloatMantissa m
        let ex ← pyFloatExp e
        pure (mant * (10 : ℚ) ^ ex)
    | _ => none
  mag.map (fun q => if signAndRest.1 then -q else q)

/-- Models Python's built-in `int` applied to a string: surrounding
whitespace stripped, optional sign, decimal digits; anything else raises
`ValueError`, modelled as `none`. -/
def pyIntOfString (s : String) : Option Int :=
  match (sTrim s).data with
  | '+' :: r => if !r.isEmpty && allDigits r then some (digitsToNat r : Int) else none
  | '-' :: r => if !r.isEmpty && allDigits r then some (-(digitsToNat r : Int)) else none
  | r => if !r.isEmpty && allDigits r then some (digitsToNat r : Int) else none

/-- `parse_float` from `agent.py`: `None` maps to `None`; otherwise
`float(str(val).replace(",", ""))` with `ValueError` caught and resolved to
`None`.  By cases on the value: `str` of an int or float has no comma and
round-trips through `float`; `str(True)`/`str(False)` and the bracketed
`str` forms of lists and dicts never parse as floats, so those inputs
resolve to `None`.  Only `ValueError` can occur, so this never raises. -/
def parse_float (v : Json) : Option ℚ :=
  match v with
  | .null => none
  | .int n => some (n : ℚ)
  | .float q => some q
  | .str s => pyFloatOfString (stripCommas s)
  | .bool _ => none
  | .arr _ => none
  | .obj _ => none

/-- `parse_int` from `agent.py`: `None` maps to `None`; otherwise `int(val)`
with only `ValueError` caught.  `int` of an int is itself, of a float
truncates toward zero, of a bool is 0 or 1, of a string parses decimal
digits (`ValueError`, hence `None`, on failure) — but `int` of a list or
dict raises `TypeError`, which the code does not catch. -/
def parse_int (v : Json) : Except PyErr (Option Int) :=
  match v with
  | .null => .ok none
  | .int n => .ok (some n)
  | .float q => .ok (some (if 0 ≤ q then ⌊q⌋ else ⌈q⌉))
  | .bool b => .ok (some (if b then 1 else 0))
  | .str s => .ok (pyIntOfString s)
  | .arr _ => .error .typeError
  | .obj _ => .error .typeError

/-- A calendar date as produced by the date parser. -/
structure PDate where
  year : Nat
  month : Nat
  day : Nat

/-- Zero-pad to two digits (`strftime` field `%d` / `%m`). -/
def pad2 (n : Nat) : String :=
  if n < 10 then "0" ++ toString n else toString n

/-- Zero-pad to four digits (`strftime` field `%Y`). -/
def pad4 (n : Nat) : String :=
  if n < 10 then "000" ++ toString n
  else if n < 100 then "00" ++ toString n
  else if n < 1000 then "0" ++ toString n
  else toString n

/-- `dt.strftime(%Y-%m-%d)` with `%Y`, `%m`, `%d` hyphen-separated. -/
def fmtDate (d : PDate) : String :=
  pad4 d.year ++ "-" ++ pad2 d.month ++ "-" ++ pad2 d.day

/-- The part of the list after the first occurrence of `needle`, or `none`
when `needle` does not occur. -/
def afterSub (needle : List Char) : List Char → Option (List Char)
  | [] => none
  | c :: cs =>
      if needle.isPrefixOf (c :: cs) then some ((c :: cs).drop needle.length)
      else afterSub needle cs

/-- The two parts around the first occurrence of `needle`, or `none` when
`needle` does not occur. -/
def splitFirst (needle : List Char) : List Char → Option (List Char × List Char)
  | [] => none
  | c :: cs =>
      if needle.isPrefixOf (c :: cs) then some ([], (c :: cs).drop needle.length)
      else (splitFirst needle cs).map (fun p => (c :: p.1, p.2))

/-- The part of `s` after the first occurrence of the substring `" on "`
(`s.split(" on ", 1)[-1]` under `" on " in s`), or `none` when `s` does not
contain `" on "`. -/
def afterFirstOn (s : String) : Option String :=
  (afterSub (' ' :: 'o' :: 'n' :: ' ' :: []) s.data).map String.mk

/-- Month-name lookup used by the fuzzy date parser model. -/
def monthNum (w : String) : Option Nat :=
  match w with
  | "January" => some 1
  | "February" => some 2
  | "March" => some 3
  | "April" => some 4
  | "May" => some 5
  | "June" => some 6
  | "July" => some 7
  | "August" => some 8
  | "September" => some 9
  | "October" => some 10
  | "November" => some 11
  | "December" => some 12
  | _ => none

/-- Modelled from the spec: the third-party `dateutil.parser.parse(s,
fuzzy=True)` call is not part of this repository.  This models its behavior
on the phrasings exercised here: a string of the shape
`"<MonthName> <day>, <year>"` parses to that date, and a string carrying no
date tokens (such as `"not a date at all"`) fails, modelled as `none`. -/
def dateutilFuzzy (s : String) : Option PDate :=
  match splitFirst (',' :: ' ' :: []) s.data with
  | some (md, y) =>
      match splitFirst (' ' :: []) md with
      | some (mw, dw) => do
          let m ← monthNum (String.mk mw)
          let d ← natOfDigits dw
          let yr ← natOfDigits y
          if 1 ≤ d && d ≤ 31 && 1 ≤ yr then some ⟨yr, m, d⟩ else none
      | none => none
  | none => none

/-- `parse_date` from `agent.py`, parameterized by the fuzzy date parser:
falsy input returns `None`; for a string, everything up to and including
the first `" on "` is discarded, the remainder is stripped and fuzzily
parsed, a successful parse is formatted `YYYY-MM-DD` and a failure returns
the (unstripped) remainder.  For every truthy non-string JSON value the
`try` block raises before reassigning `date_str` (`" on " in v` raises
`TypeError` for ints, floats and bools; for lists and dicts the membership
test succeeds but the subsequent `.split` or `.strip` attribute access
raises `AttributeError`), so the blanket `except` returns the input
unchanged. -/
def parse_dateWith (fuzzy : String → Option PDate) (v : Json) : Json :=
  if pyFalsy v then Json.null
  else
    match v with
    | .str s =>
        let s1 := (afterFirstOn s).getD s
        match fuzzy (sTrim s1) with
        | some d => .str (fmtDate d)
        | none => .str s1
    | w => w

/-- `parse_date` from `agent.py`, with the dateutil model plugged in. -/
def parse_date : Json → Json :=
  parse_dateWith dateutilFuzzy

/-- A row of the `posts` table as built by `ingest_record` (the serial `id`
is assigned by the database and omitted).  Fields copied verbatim from the
record keep type `Json` (they start out as Python `None`, here `Json.null`);
`price` and `total_rating` are the results of `parse_float`/`parse_int`.
`raw_json` holds the ingested record itself: `json.dumps(record,
ensure_ascii=False)` is total and injective on JSON values, so keeping the
value in place of its serialization preserves every observable property
used here. -/
structure Post where
  source : Json
  title : Json
  created_at : Json
  asin : Json
  subreddit : Json
  url : Json
  description : Json
  channel_name : Json
  country_of_origin : Json
  price : Option ℚ
  currency : Json
  star_ratings : Json
  total_rating : Option Int
  raw_json : Json

/-- A row of the `comments` table as built by `ingest_record` (serial `id`
and the `post_id` foreign key assigned at insertion time are omitted). -/
structure Comment where
  author_name : Json
  content : Json
  rating : Option ℚ
  helpful_votes : Json
  karma : Option Int
  created_at : Json
  age_group : Json
  gender : Json
  income_band : Json

/-- One iteration of the comment loop of `ingest_record` (lines 337-381 of
`agent.py`), minus the `insert_comment` call: demographic fields are read
from `c.get("user_info") or {}` first (raising `AttributeError` when `c` is
not a dict, or when `user_info` is truthy but not a dict), then the entry is
dispatched on the presence of `review_author`, `body` or `text`, in that
order; an entry with none of the three keys still yields a `Comment`, with
every platform field left as `None`. -/
def ingest_comment (c : Json) : Except PyErr Comment :=
  match c with
  | .obj ckvs => do
      let user_info := objGet ckvs "user_info" Json.null
      let ui := if pyFalsy user_info then Json.obj [] else user_info
      let age_group ← jget ui "age_group" Json.null
      let gender ← jget ui "gender" Json.null
      let income_band ← jget ui "income_band" Json.null
      if hasKey ckvs "review_author" then
        pure { author_name := objGet ckvs "review_author" Json.null
               content := objGet ckvs "content" Json.null
               rating := parse_float (objGet ckvs "review_star_rating" Json.null)
               helpful_votes := objGet ckvs "helpful_vote_statement" Json.null
               karma := none
               created_at := parse_date (objGet ckvs "review_date" Json.null)
               age_group, gender, income_band }
      else if hasKey ckvs "body" then do
        let karma ← parse_int (objGet ckvs "karma" Json.null)
        pure { author_name := objGet ckvs "author" Json.null
               content := objGet ckvs "body" Json.null
               rating := none
               helpful_votes := Json.null
               karma
               created_at := parse_date (objGet ckvs "created_at" Json.null)
               age_group, gender, income_band }
      else if hasKey ckvs "text" then
        pure { author_name := objGet ckvs "author_name" Json.null
               content := objGet ckvs "text" Json.null
               rating := none
               helpful_votes := Json.null
               karma := none
               created_at := objGet ckvs "time" Json.null
               age_group, gender, income_band }
      else
        pure { author_name := Json.null
               content := Json.null
               rating := none
               helpful_votes := Json.null
               karma := none
               created_at := Json.null
               age_group, gender, income_band }
  | _ => .error .attributeError

/-- `for c in comments:` — Python iteration over the value found under
`reviews`/`comments`: a list yields its elements, a string its characters
(as one-character strings), a dict its keys; `None`, booleans and numbers
are not iterable and raise `TypeError`. -/
def pyIter (v : Json) : Except PyErr (List Json) :=
  match v with
  | .arr xs => .ok xs
  | .str s => .ok (s.data.map (fun c => Json.str (String.mk [c])))
  | .obj kvs => .ok (kvs.map (fun p => Json.str p.1))
  | _ => .error .typeError

/-- Sequential processing of a list, in order, stopping at the first raised
exception — the shape shared by the comment loop of `ingest_record` and the
record loop of `ingest_json_file`. -/
def mapExcept {α β : Type} (f : α → Except PyErr β) : List α → Except PyErr (List β)
  | [] => .ok []
  | x :: xs => do
      let y ← f x
      let ys ← mapExcept f xs
      pure (y :: ys)

/-- `ingest_record` from `agent.py` (lines 262-381), minus the database
calls: maps one record to its `Post` row and the list of `Comment` rows, or
to the exception Python would raise.  `record.get("source", "unknown")`
raises `AttributeError` on a non-dict record; `source.lower()` (evaluated by
the first `if`) raises `AttributeError` whenever the `source` value is not a
string — in particular when the key is present with value `null`.  The
platform branches then mirror lines 290-308, the `reviews`/`comments` key
probe mirrors lines 330-334 and the comment loop mirrors lines 337-381. -/
def ingest_record (record : Json) : Except PyErr (Post × List Comment) :=
  match record with
  | .obj kvs => do
      let source := objGet kvs "source" (Json.str "unknown")
      let low ← pyLower source
      let post ←
        if strContains low "amazon" then do
          let product_details := objGet kvs "product_details" (Json.obj [])
          let title ← jget product_details "title" Json.null
          let country_of_origin ← jget product_details "Country of Origin" Json.null
          let priceV ← jget product_details "price" Json.null
          let currency ← jget product_details "currency" Json.null
          let star_ratings ← jget product_details "star_ratings" Json.null
          let trV ← jget product_details "total_rating" Json.null
          let total_rating ← parse_int trV
          pure { source
                 title
                 created_at := Json.null
                 asin := objGet kvs "asin" Json.null
                 subreddit := Json.null
                 url := Json.null
                 description := Json.null
                 channel_name := Json.null
                 country_of_origin
                 price := parse_float priceV
                 currency
                 star_ratings
                 total_rating
                 raw_json := record : Post }
        else if strContains low "reddit" then
          pure { source
                 title := objGet kvs "content" Json.null
                 created_at := parse_date (objGet kvs "created_at" Json.null)
                 asin := Json.null
                 subreddit := objGet kvs "subreddit" Json.null
                 url := Json.null
                 description := Json.null
                 channel_name := Json.null
                 country_of_origin := Json.null
                 price := none
                 currency := Json.null
                 star_ratings := Json.null
                 total_rating := none
                 raw_json := record : Post }
        else if strContains low "youtube" then
          pure { source
                 title := objGet kvs "title" Json.null
                 created_at := parse_date (objGet kvs "published_at" Json.null)
                 asin := Json.null
                 subreddit := Json.null
                 url := objGet kvs "url" Json.null
                 description := objGet kvs "description" Json.null
                 channel_name := objGet kvs "channel_name" Json.null
                 country_of_origin := Json.null
                 price := none
                 currency := Json.null
                 star_ratings := Json.null
                 total_rating := none
                 raw_json := record : Post }
        else
          pure { source
                 title := Json.null
                 created_at := Json.null
                 asin := Json.null
                 subreddit := Json.null
                 url := Json.null
                 description := Json.null
                 channel_name := Json.null
                 country_of_origin := Json.null
                 price := none
                 currency := Json.null
                 star_ratings := Json.null
                 total_rating := none
                 raw_json := record : Post }
      let commentsVal :=
        if hasKey kvs "reviews" then objGet kvs "reviews" Json.null
        else if hasKey kvs "comments" then objGet kvs "comments" Json.null
        else Json.arr []
      let entries ← pyIter commentsVal
      let cs ← mapExcept ingest_comment entries
      pure (post, cs)
  | _ => .error .attributeError

/-- `ingest_json_file` from `agent.py` (lines 383-405), applied to the value
returned by `json.load` (the file-system probing and JSON decoding steps
are outside the normalization core): a non-list top level raises
`ValueError` — the spec's `MalformedInput` — before any record is
processed; a list is ingested record by record, in order. -/
def ingest_json_file (data : Json) : Except PyErr (List (Post × List Comment)) :=
  match data with
  | .arr records => mapExcept ingest_record records
  | _ => .error .malformedInput

/-- The source classification of `ingest_record`'s `if`/`elif` chain
(lines 290-308 of `agent.py`): case-insensitive substring tests for
`amazon`, `reddit`, `youtube`, in that order, first match winning. -/
inductive Platform where
  | amazon
  | reddit
  | youtube
  | unrecognized
deriving DecidableEq

/-- The platform selected by `ingest_record` for a string source tag. -/
def classify_source (s : String) : Platform :=
  if strContains (sToLower s) "amazon" then .amazon
  else if strContains (sToLower s) "reddit" then .reddit
  else if strContains (sToLower s) "youtube" then .youtube
  else .unrecognized

/-- A record carrying one marker field for each platform branch, so that
the branch taken by `ingest_record` is observable on the resulting post. -/
def markerRecord (s : String) : Json :=
  Json.obj [("source", Json.str s), ("asin", Json.str "A"),
            ("subreddit", Json.str "R"), ("url", Json.str "U")]

/-- The post `ingest_record` produces for `markerRecord s`: only the marker
field of the classified platform is populated. -/
def markerPost (s : String) : Post where
  source := Json.str s
  title := Json.null
  created_at := Json.null
  asin := if classify_source s = Platform.amazon then Json.str "A" else Json.null
  subreddit := if classify_source s = Platform.reddit then Json.str "R" else Json.null
  url := if classify_source s = Platform.youtube then Json.str "U" else Json.null
  description := Json.null
  channel_name := Json.null
  country_of_origin := Json.null
  price := none
  currency := Json.null
  star_ratings := Json.null
  total_rating := none
  raw_json := markerRecord s

/-- The all-null post produced for a record with no matching platform
branch and no extractable fields. -/
def nullPost (src raw : Json) : Post where
  source := src
  title := Json.null
  created_at := Json.null
  asin := Json.null
  subreddit := Json.null
  url := Json.null
  description := Json.null
  channel_name := Json.null
  country_of_origin := Json.null
  price := none
  currency := Json.null
  star_ratings := Json.null
  total_rating := none
  raw_json := raw

/-- The all-null comment produced for an entry matching no comment shape. -/
def nullComment : Comment where
  author_name := Json.null
  content := Json.null
  rating := none
  helpful_votes := Json.null
  karma := none
  created_at := Json.null
  age_group := Json.null
  gender := Json.null
  income_band := Json.null

/-- The record of claim C4: a product-review record whose single review
carries the star rating string that embeds a comma. -/
def commaReviewRecord : Json :=
  Json.obj [("source", Json.str "amazon"),
    ("reviews", Json.arr [Json.obj [("review_author", Json.str "A"),
      ("content", Json.str "x"), ("review_star_rating", Json.str "4,5")]])]

/-- The record of claim C2: one entry with none of the three discriminating
keys next to one sibling entry of the video shape. -/
def blankEntryRecord : Json :=
  Json.obj [("source", Json.str "s"),
    ("reviews", Json.arr [Json.obj [], Json.obj [("text", Json.str "hi")]])]

/-!  Helper lemmas about `Except` and the lookup primitives. -/

theorem ok_bind {α β : Type} (a : α) (f : α → Except PyErr β) :
    (Except.ok a >>= f) = f a := rfl

theorem pure_eq_ok {α : Type} (a : α) : (pure a : Except PyErr α) = Except.ok a := rfl

theorem objGet_nil (k : String) (d : Json) : objGet [] k d = d := rfl

theorem bind_eq_ok {α β : Type} {e : Except PyErr α} {f : α → Except PyErr β} {b : β} :
    e >>= f = Except.ok b ↔ ∃ a, e = Except.ok a ∧ f a = Except.ok b := by
  cases e <;> simp [Bind.bind, Except.bind]

theorem bind_ne_error {α β : Type} {e : Except PyErr α} {f : α → Except PyErr β} {err : PyErr}
    (h1 : e ≠ Except.error err) (h2 : ∀ a, f a ≠ Except.error err) :
    e >>= f ≠ Except.error err := by
  cases e with
  | ok a => simpa [Bind.bind, Except.bind] using h2 a
  | error e₁ => simpa [Bind.bind, Except.bind] using h1

theorem objGet_of_not_hasKey {kvs : List (String × Json)} {k : String} {d : Json}
    (h : hasKey kvs k = false) : objGet kvs k d = d := by
  unfold hasKey at h
  unfold objGet
  cases hl : (kvs.reverse).lookup k with
  | none => rfl
  | some v => rw [hl] at h; simp at h

theorem jget_ne_mi (v : Json) (k : String) (d : Json) :
    jget v k d ≠ Except.error PyErr.malformedInput := by
  cases v <;> simp [jget]

theorem pyLower_ne_mi (v : Json) : pyLower v ≠ Except.error PyErr.malformedInput := by
  cases v <;> simp [pyLower]

theorem parse_int_ne_mi (v : Json) : parse_int v ≠ Except.error PyErr.malformedInput := by
  cases v <;> simp [parse_int]

theorem pyIter_ne_mi (v : Json) : pyIter v ≠ Except.error PyErr.malformedInput := by
  cases v <;> simp [pyIter]

theorem ingest_comment_ne_mi (c : Json) :
    ingest_comment c ≠ Except.error PyErr.malformedInput := by
  cases c with
  | obj ckvs =>
      simp only [ingest_comment]
      refine bind_ne_error (jget_ne_mi _ _ _) (fun a => ?_)
      refine bind_ne_error (jget_ne_mi _ _ _) (fun b => ?_)
      refine bind_ne_error (jget_ne_mi _ _ _) (fun d => ?_)
      split
      · simp [pure, Except.pure]
      split
      · exact bind_ne_error (parse_int_ne_mi _) (fun k => by simp [pure, Except.pure])
      split
      · simp [pure, Except.pure]
      · simp [pure, Except.pure]
  | null => simp [ingest_comment]
  | bool b => simp [ingest_comment]
  | int n => simp [ingest_comment]
  | float q => simp [ingest_comment]
  | str s => simp [ingest_comment]
  | arr xs => simp [ingest_comment]

theorem mapExcept_ne_error {α β : Type} {f : α → Except PyErr β} {err : PyErr}
    (hf : ∀ a, f a ≠ Except.error err) :
    ∀ l : List α, mapExcept f l ≠ Except.error err := by
  intro l
  induction l with
  | nil => simp [mapExcept]
  | cons x xs ih =>
      simp only [mapExcept]
      exact bind_ne_error (hf x) (fun y => bind_ne_error ih (fun ys => by simp [pure, Except.pure]))

theorem ingest_record_ne_mi (r : Json) :
    ingest_record r ≠ Except.error PyErr.malformedInput := by
  cases r with
  | obj kvs =>
      simp only [ingest_record]
      refine bind_ne_error (pyLower_ne_mi _) (fun low => ?_)
      split
      · refine bind_ne_error (jget_ne_mi _ _ _) (fun a => ?_)
        refine bind_ne_error (jget_ne_mi _ _ _) (fun b => ?_)
        refine bind_ne_error (jget_ne_mi _ _ _) (fun c => ?_)
        refine bind_ne_error (jget_ne_mi _ _ _) (fun d => ?_)
        refine bind_ne_error (jget_ne_mi _ _ _) (fun e => ?_)
        refine bind_ne_error (jget_ne_mi _ _ _) (fun f => ?_)
        refine bind_ne_error (parse_int_ne_mi _) (fun g => ?_)
        refine bind_ne_error (by simp [pure, Except.pure]) (fun y => ?_)
        refine bind_ne_error (pyIter_ne_mi _) (fun entries => ?_)
        refine bind_ne_error (mapExcept_ne_error ingest_comment_ne_mi _) (fun cs => ?_)
        simp [pure, Except.pure]
      split
      · refine bind_ne_error (by simp [pure, Except.pure]) (fun y => ?_)
        refine bind_ne_error (pyIter_ne_mi _) (fun entries => ?_)
        refine bind_ne_error (mapExcept_ne_error ingest_comment_ne_mi _) (fun cs => ?_)
        simp [pure, Except.pure]
      split
      · refine bind_ne_error (by simp [pure, Except.pure]) (fun y => ?_)
        refine bind_ne_error (pyIter_ne_mi _) (fun entries => ?_)
        refine bind_ne_error (mapExcept_ne_error ingest_comment_ne_mi _) (fun cs => ?_)
        simp [pure, Except.pure]
      · refine bind_ne_error (by simp [pure, Except.pure]) (fun y => ?_)
        refine bind_ne_error (pyIter_ne_mi _) (fun entries => ?_)
        refine bind_ne_error (mapExcept_ne_error ingest_comment_ne_mi _) (fun cs => ?_)
        simp [pure, Except.pure]
  | null => simp [ingest_record]
  | bool b => simp [ingest_record]
  | int n => simp [ingest_record]
  | float q => simp [ingest_record]
  | str s => simp [ingest_record]
  | arr xs => simp [ingest_record]

end DataAgent

namespace DataAgent

/-!  Claim theorems. -/

/-- Claim C1 (the spec's no-raise contract for the normalizer fails on the
code): `ingest_record`'s mapping logic raises `AttributeError` when the
`source` key is present with value `null` (Python evaluates
`None.lower()`), raises `AttributeError` when `product_details` is present
but `null` (the `.get(..., {})` default does not apply to a present key, so
`None.get("title")` is evaluated), and raises `TypeError` when
`reviews` is present but not iterable — each of the three shapes the claim
says must be tolerated. -/
theorem ingest_record_raises_on_unexpected_shapes :
    ingest_record (Json.obj [("source", Json.null)]) = Except.error PyErr.attributeError
    ∧ ingest_record (Json.obj [("source", Json.str "amazon"), ("product_details", Json.null)])
        = Except.error PyErr.attributeError
    ∧ ingest_record (Json.obj [("source", Json.str "x"), ("reviews", Json.int 5)])
        = Except.error PyErr.typeError :=
  ⟨rfl, rfl, rfl⟩

/-- Claim C8 counterexample: `parse_int` applied to a list (or dict) raises
`TypeError` instead of returning nothing — `int([])` is a `TypeError` and
the code catches only `ValueError`. -/
theorem parse_int_list_counterexample :
    parse_int (Json.arr []) = Except.error PyErr.typeError
    ∧ parse_int (Json.arr []) ≠ Except.ok none :=
  ⟨rfl, by simp [parse_int]⟩

/-- Claim C8 (amended): `parse_int` returns an integer on successful parse
and `none` on null input or on `ValueError`-style parse failure (any
unparseable string, including strings with comma separators, which it does
not strip while `parse_float` does) — but for inputs of list or dict type
it raises `TypeError` rather than returning nothing. -/
theorem parse_int_behavior :
    parse_int Json.null = Except.ok none
    ∧ (∀ n, parse_int (Json.int n) = Except.ok (some n))
    ∧ (∀ s, parse_int (Json.str s) = Except.ok (pyIntOfString s))
    ∧ parse_int (Json.str "1,234") = Except.ok none
    ∧ parse_float (Json.str "1,234") = some 1234
    ∧ (∀ xs, parse_int (Json.arr xs) = Except.error PyErr.typeError)
    ∧ (∀ kvs, parse_int (Json.obj kvs) = Except.error PyErr.typeError) :=
  ⟨rfl, fun _ => rfl, fun _ => rfl, rfl, rfl, fun _ => rfl, fun _ => rfl⟩

/-- Claim C4 counterexample: the review entry with `review_star_rating`
`"4,5"` yields rating `45`, not `4.5` — `"4,5".replace(",", "")` is `"45"`,
so the parsed float is forty-five. -/
theorem comma_rating_counterexample :
    (ingest_record commaReviewRecord).map
        (fun pc => pc.2.map (fun c => (c.author_name, c.rating)))
      = Except.ok [(Json.str "A", some 45)]
    ∧ (45 : ℚ) ≠ 4.5 :=
  ⟨rfl, by norm_num⟩

/-- Claim C4 (amended): normalizing the product-review record whose
`reviews` list is `[{review_author: "A", content: "x", review_star_rating:
"4,5"}]` yields exactly one Comment, with `author_name = "A"` and
`rating = 45.0` (the comma is removed and the surrounding digits
concatenated, not read as a decimal separator). -/
theorem comma_rating_amended :
    (ingest_record commaReviewRecord).map
        (fun pc => pc.2.map (fun c => (c.author_name, c.rating)))
      = Except.ok [(Json.str "A", some 45)]
    ∧ (ingest_record commaReviewRecord).map (fun pc => pc.2.length) = Except.ok 1 :=
  ⟨rfl, rfl⟩

/-- Claim C3 counterexample: on fuzzy-parse failure `parse_date` does not
trim — `"  zzzz  "` comes back with its whitespace — and for an input
containing `" on "` it returns only the part after the first `" on "`, not
the original string. -/
theorem date_fallback_counterexample :
    parse_date (Json.str "  zzzz  ") = Json.str "  zzzz  "
    ∧ ("  zzzz  " : String) ≠ "zzzz"
    ∧ parse_date (Json.str "x on zzzz") = Json.str "zzzz"
    ∧ ("zzzz" : String) ≠ "x on zzzz" :=
  ⟨rfl, by decide, rfl, by decide⟩

/-- Claim C3 (amended): for every non-empty string on which the fuzzy date
parse fails, `parse_date` returns the remaining input substring unchanged
and untrimmed: the original string when it does not contain `" on "`, and
the part after the first `" on "` otherwise; it never returns nothing for
such inputs. -/
theorem parse_date_failure_fallback :
    (∀ (fuzzy : String → Option PDate) (s : String), s ≠ "" →
        fuzzy (sTrim ((afterFirstOn s).getD s)) = none →
        parse_dateWith fuzzy (Json.str s) = Json.str ((afterFirstOn s).getD s))
    ∧ parse_date = parse_dateWith dateutilFuzzy := by
  refine ⟨fun fuzzy s hne hf => ?_, rfl⟩
  have hfalsy : pyFalsy (Json.str s) = false := by simp [pyFalsy, hne]
  simp [parse_dateWith, hfalsy, hf]

/-- Witness for claim C3: a concrete failing parse with `" on "` and
trailing whitespace, returning the untrimmed after-`" on "` part. -/
theorem parse_date_failure_fallback_witness :
    parse_dateWith (fun _ => none) (Json.str " a on b ") = Json.str "b " :=
  parse_date_failure_fallback.1 (fun _ => none) " a on b " (by decide) rfl

/-- Claim C9: when the input string contains `" on "`, the result of
`parse_date` depends only on the part after the first `" on "` (everything
up to and including it is discarded before parsing), and the spec's
example parses: `"Reviewed in India on March 3, 2023"` gives
`"2023-03-03"`. -/
theorem parse_date_on_dependence :
    (∀ s₁ s₂ r, afterFirstOn s₁ = some r → afterFirstOn s₂ = some r →
        parse_date (Json.str s₁) = parse_date (Json.str s₂))
    ∧ parse_date (Json.str "Reviewed in India on March 3, 2023") = Json.str "2023-03-03" := by
  refine ⟨fun s₁ s₂ r h₁ h₂ => ?_, rfl⟩
  have ne₁ : s₁ ≠ "" := by
    intro e; rw [e, show afterFirstOn "" = none from rfl] at h₁; exact Option.noConfusion h₁
  have ne₂ : s₂ ≠ "" := by
    intro e; rw [e, show afterFirstOn "" = none from rfl] at h₂; exact Option.noConfusion h₂
  simp [parse_date, parse_dateWith, pyFalsy, ne₁, ne₂, h₁, h₂]

/-- Witness for claim C9: two strings sharing the part after the first
`" on "` parse identically. -/
theorem parse_date_on_dependence_witness :
    parse_date (Json.str "a on c") = parse_date (Json.str "b on c") :=
  parse_date_on_dependence.1 "a on c" "b on c" "c" rfl rfl

/-- Claim C10: every truthy non-string input comes back from `parse_date`
unchanged and without raising — the membership test `" on " in date_str`
(or the subsequent attribute access) raises inside the `try`, the blanket
`except` returns the input — so numeric epoch timestamps are never
converted to `YYYY-MM-DD`. -/
theorem parse_date_nonstring_passthrough :
    (∀ v : Json, (∀ s, v ≠ Json.str s) → pyFalsy v = false → parse_date v = v)
    ∧ parse_date (Json.int 1672531200) = Json.int 1672531200 := by
  refine ⟨fun v h hf => ?_, rfl⟩
  cases v with
  | str s => exact absurd rfl (h s)
  | null => simp [pyFalsy] at hf
  | bool b => simp [parse_date, parse_dateWith, hf]
  | int n => simp [parse_date, parse_dateWith, hf]
  | float q => simp [parse_date, parse_dateWith, hf]
  | arr xs => simp [parse_date, parse_dateWith, hf]
  | obj kvs => simp [parse_date, parse_dateWith, hf]

/-- Witness for claim C10: the epoch timestamp `1672531200` passes through
`parse_date` unchanged. -/
theorem parse_date_nonstring_passthrough_witness :
    parse_date (Json.int 1672531200) = Json.int 1672531200 :=
  parse_date_nonstring_passthrough.1 (Json.int 1672531200) (fun _ h => Json.noConfusion h) rfl

end DataAgent

namespace DataAgent

/-- Claim C2 counterexample: a record whose `reviews` list holds one entry
with none of the three discriminating keys and one `text`-shaped sibling
produces two Comment rows, not one — the entry matching no shape is not
dropped. -/
theorem blank_entry_counterexample :
    (ingest_record blankEntryRecord).map (fun pc => pc.2) =
      Except.ok [nullComment, { nullComment with content := Json.str "hi" }]
    ∧ (ingest_record blankEntryRecord).map (fun pc => pc.2.length) ≠ Except.ok 1 := by
  refine ⟨rfl, ?_⟩
  rw [show (ingest_record blankEntryRecord).map (fun pc => pc.2.length) = Except.ok 2 from rfl]
  simp

/-- Claim C2 (amended): a comment entry lacking all three discriminating
fields produces exactly one Comment row for that entry, with every
platform-mapped field null (demographics are still read from `user_info`,
here absent); sibling entries are processed independently, each through the
same per-entry mapping. -/
theorem blank_entry_one_row :
    (∀ ckvs, hasKey ckvs "review_author" = false → hasKey ckvs "body" = false →
        hasKey ckvs "text" = false → hasKey ckvs "user_info" = false →
        ingest_comment (Json.obj ckvs) = Except.ok nullComment)
    ∧ (∀ entries cs, mapExcept ingest_comment entries = Except.ok cs →
        (ingest_record (Json.obj [("source", Json.str "s"), ("reviews", Json.arr entries)])).map
          (fun pc => pc.2) = Except.ok cs)
    ∧ (ingest_record blankEntryRecord).map (fun pc => pc.2) =
        Except.ok [nullComment, { nullComment with content := Json.str "hi" }] := by
  refine ⟨fun ckvs h1 h2 h3 h4 => ?_, fun entries cs h => ?_, rfl⟩
  · simp only [ingest_comment, objGet_of_not_hasKey h4]
    simp [jget, objGet_nil, ok_bind, pure_eq_ok, pyFalsy, h1, h2, h3, nullComment]
  · rw [show ingest_record (Json.obj [("source", Json.str "s"), ("reviews", Json.arr entries)])
        = mapExcept ingest_comment entries >>= fun cs' =>
            pure (nullPost (Json.str "s")
              (Json.obj [("source", Json.str "s"), ("reviews", Json.arr entries)]), cs') from rfl,
      h]
    simp [pure, Except.pure, Bind.bind, Except.bind, Except.map]

/-- Witness for claim C2: the empty-object entry yields its single all-null
comment. -/
theorem blank_entry_one_row_witness :
    ingest_comment (Json.obj []) = Except.ok nullComment :=
  blank_entry_one_row.1 [] rfl rfl rfl rfl

/-- Claim C5 counterexample: a record whose `source` key holds the empty
string (falsy but present) keeps `""` as the stored source — it is not
replaced by `"unknown"` — so the stored source can be empty. -/
theorem source_empty_counterexample :
    (ingest_record (Json.obj [("source", Json.str "")])).map (fun pc => pc.1.source)
      = Except.ok (Json.str "")
    ∧ ("" : String) ≠ "unknown" :=
  ⟨rfl, by decide⟩

/-- Claim C5 (amended): whenever `ingest_record` returns a post, its
`source` field is the record's `source` value — the `"unknown"` default
applies exactly when the key is absent, not when its value is falsy (a
present empty string is stored as is, and a present `null` raises before
any post is produced). -/
theorem post_source_default :
    (∀ kvs p cs, ingest_record (Json.obj kvs) = Except.ok (p, cs) →
        p.source = objGet kvs "source" (Json.str "unknown"))
    ∧ (∀ kvs p cs, hasKey kvs "source" = false → ingest_record (Json.obj kvs) = Except.ok (p, cs) →
        p.source = Json.str "unknown")
    ∧ (ingest_record (Json.obj [("source", Json.str "")])).map (fun pc => pc.1.source)
        = Except.ok (Json.str "") := by
  have main : ∀ kvs p cs, ingest_record (Json.obj kvs) = Except.ok (p, cs) →
      p.source = objGet kvs "source" (Json.str "unknown") := by
    intro kvs p cs h
    simp only [ingest_record] at h
    rcases bind_eq_ok.mp h with ⟨low, -, h⟩
    split at h
    · rcases bind_eq_ok.mp h with ⟨t, -, h⟩
      rcases bind_eq_ok.mp h with ⟨co, -, h⟩
      rcases bind_eq_ok.mp h with ⟨pv, -, h⟩
      rcases bind_eq_ok.mp h with ⟨cu, -, h⟩
      rcases bind_eq_ok.mp h with ⟨sr, -, h⟩
      rcases bind_eq_ok.mp h with ⟨tv, -, h⟩
      rcases bind_eq_ok.mp h with ⟨tr, -, h⟩
      rcases bind_eq_ok.mp h with ⟨y, hy, h⟩
      rcases bind_eq_ok.mp h with ⟨entries, -, h⟩
      rcases bind_eq_ok.mp h with ⟨cs', -, h⟩
      rw [pure_eq_ok, Except.ok.injEq, Prod.mk.injEq] at h
      obtain ⟨rfl, rfl⟩ := h
      rw [pure_eq_ok, Except.ok.injEq] at hy
      subst hy
      rfl
    · split at h
      · rcases bind_eq_ok.mp h with ⟨y, hy, h⟩
        rcases bind_eq_ok.mp h with ⟨entries, -, h⟩
        rcases bind_eq_ok.mp h with ⟨cs', -, h⟩
        rw [pure_eq_ok, Except.ok.injEq, Prod.mk.injEq] at h
        obtain ⟨rfl, rfl⟩ := h
        rw [pure_eq_ok, Except.ok.injEq] at hy
        subst hy
        rfl
      · split at h
        · rcases bind_eq_ok.mp h with ⟨y, hy, h⟩
          rcases bind_eq_ok.mp h with ⟨entries, -, h⟩
          rcases bind_eq_ok.mp h with ⟨cs', -, h⟩
          rw [pure_eq_ok, Except.ok.injEq, Prod.mk.injEq] at h
          obtain ⟨rfl, rfl⟩ := h
          rw [pure_eq_ok, Except.ok.injEq] at hy
          subst hy
          rfl
        · rcases bind_eq_ok.mp h with ⟨y, hy, h⟩
          rcases bind_eq_ok.mp h with ⟨entries, -, h⟩
          rcases bind_eq_ok.mp h with ⟨cs', -, h⟩
          rw [pure_eq_ok, Except.ok.injEq, Prod.mk.injEq] at h
          obtain ⟨rfl, rfl⟩ := h
          rw [pure_eq_ok, Except.ok.injEq] at hy
          subst hy
          rfl
  exact ⟨main, fun kvs p cs hk h => by rw [main kvs p cs h, objGet_of_not_hasKey hk], rfl⟩

/-- Witness for claim C5: the empty record has no `source` key and its post
carries the `"unknown"` default. -/
theorem post_source_default_witness :
    Post.source (nullPost (Json.str "unknown") (Json.obj [])) = Json.str "unknown" :=
  post_source_default.2.1 [] (nullPost (Json.str "unknown") (Json.obj [])) [] rfl rfl

/-- Claim C6: classification of a string source tag is a case-insensitive
substring test for `amazon`, `reddit`, `youtube` in that fixed priority
order, first match winning — characterized by the four equivalences — and
`"amazon-on-reddit"` classifies as the product-review variant; for every
tag, `ingest_record` populates exactly the classified platform's fields
(observable on a record carrying one marker field per platform), and a tag
matching no substring still produces a Post. -/
theorem source_classification_priority :
    (∀ s : String,
      (classify_source s = Platform.amazon ↔ strContains (sToLower s) "amazon" = true)
      ∧ (classify_source s = Platform.reddit ↔
          (strContains (sToLower s) "amazon" = false ∧ strContains (sToLower s) "reddit" = true))
      ∧ (classify_source s = Platform.youtube ↔
          (strContains (sToLower s) "amazon" = false ∧ strContains (sToLower s) "reddit" = false
            ∧ strContains (sToLower s) "youtube" = true))
      ∧ (classify_source s = Platform.unrecognized ↔
          (strContains (sToLower s) "amazon" = false ∧ strContains (sToLower s) "reddit" = false
            ∧ strContains (sToLower s) "youtube" = false)))
    ∧ classify_source "amazon-on-reddit" = Platform.amazon
    ∧ (∀ s : String, ingest_record (markerRecord s) = Except.ok (markerPost s, [])) := by
  refine ⟨fun s => ?_, rfl, fun s => ?_⟩
  · by_cases h1 : strContains (sToLower s) "amazon" = true
    · simp [classify_source, h1]
    · by_cases h2 : strContains (sToLower s) "reddit" = true
      · simp [classify_source, h1, h2, Bool.of_not_eq_true h1]
      · by_cases h3 : strContains (sToLower s) "youtube" = true
        · simp [classify_source, h1, h2, h3, Bool.of_not_eq_true h1, Bool.of_not_eq_true h2]
        · simp [classify_source, h1, h2, h3, Bool.of_not_eq_true h1, Bool.of_not_eq_true h2,
            Bool.of_not_eq_true h3]
  · rw [show ingest_record (markerRecord s) =
        (if strContains (sToLower s) "amazon" = true then
          Except.ok (({ nullPost (Json.str s) (markerRecord s) with asin := Json.str "A" } : Post),
            ([] : List Comment))
        else if strContains (sToLower s) "reddit" = true then
          Except.ok (({ nullPost (Json.str s) (markerRecord s) with subreddit := Json.str "R" } : Post),
            ([] : List Comment))
        else if strContains (sToLower s) "youtube" = true then
          Except.ok (({ nullPost (Json.str s) (markerRecord s) with url := Json.str "U" } : Post),
            ([] : List Comment))
        else
          Except.ok ((nullPost (Json.str s) (markerRecord s) : Post), ([] : List Comment))) from rfl]
    by_cases h1 : strContains (sToLower s) "amazon" = true
    · simp [h1, markerPost, classify_source, nullPost]
    · by_cases h2 : strContains (sToLower s) "reddit" = true
      · simp [h1, h2, markerPost, classify_source, nullPost]
      · by_cases h3 : strContains (sToLower s) "youtube" = true
        · simp [h1, h2, h3, markerPost, classify_source, nullPost]
        · simp [h1, h2, h3, markerPost, classify_source, nullPost]

/-- Claim C7: `ingest_json_file` fails with the `MalformedInput` error
exactly when the top-level JSON value is not a list — before any record is
processed — and never with that error on a list; ingesting the empty array
returns normally with zero posts and zero comments. -/
theorem ingest_top_level_list :
    (∀ v : Json, (∀ xs, v ≠ Json.arr xs) →
        ingest_json_file v = Except.error PyErr.malformedInput)
    ∧ (∀ records : List Json, ingest_json_file (Json.arr records) ≠ Except.error PyErr.malformedInput)
    ∧ ingest_json_file (Json.arr []) = Except.ok [] := by
  refine ⟨fun v hv => ?_, fun records => ?_, rfl⟩
  · cases v with
    | arr xs => exact absurd rfl (hv xs)
    | null => rfl
    | bool b => rfl
    | int n => rfl
    | float q => rfl
    | str s => rfl
    | obj kvs => rfl
  · simp only [ingest_json_file]
    exact mapExcept_ne_error ingest_record_ne_mi records

/-- Witness for claim C7: a top-level JSON object is rejected as
`MalformedInput`. -/
theorem ingest_top_level_list_witness :
    ingest_json_file (Json.obj []) = Except.error PyErr.malformedInput :=
  ingest_top_level_list.1 (Json.obj []) (fun _ h => Json.noConfusion h)

end DataAgent
